import Mathlib

/-!
Verification development for the Unity-Desktop-System-Tray-Monitor sampler
(src/unity_sys_monitor.py).  The Python class UnitySysMonitor is shallowly
embedded: floats are modelled as rationals, cumulative byte counters as
naturals, fallible operations (Python exceptions) as Option, and the
interleaving of the update thread, the radeontop reader thread and the GTK
callbacks as a step relation on an explicit state record.
-/

namespace UnitySysMonitor

/-- Cumulative network byte counters, the relevant fields of the object
returned by psutil.net_io_counters() (lines 196 and 347 of the source). -/
structure NetCounters where
  bytes_recv : ℕ
  bytes_sent : ℕ
deriving DecidableEq

/-- One cumulative counter sample: the pair of attributes
(self.prev_net_io, self.prev_net_time) kept by UnitySysMonitor
(lines 196-197 and 355-357), or the freshly read pair
(current_net_io, current_time) of lines 347-348. -/
structure CounterSample where
  bytes_recv : ℕ
  bytes_sent : ℕ
  timestamp : ℚ
deriving DecidableEq

/-- The network-rate computation of update_stats, lines 350-353:
time_delta = current_time - self.prev_net_time;
recv_speed = (current.bytes_recv - prev.bytes_recv) / time_delta;
sent_speed = (current.bytes_sent - prev.bytes_sent) / time_delta.
The source performs the two divisions unconditionally; a zero time_delta
raises ZeroDivisionError, modelled here as none. -/
def calc_network_speeds (prev curr : CounterSample) : Option (ℚ × ℚ) :=
  let time_delta := curr.timestamp - prev.timestamp
  if time_delta = 0 then none
  else
    some (((curr.bytes_recv : ℚ) - (prev.bytes_recv : ℚ)) / time_delta,
          ((curr.bytes_sent : ℚ) - (prev.bytes_sent : ℚ)) / time_delta)

example : calc_network_speeds ⟨1000, 500, 0⟩ ⟨3048, 1012, 2⟩ = some (1024, 256) := by
  norm_num [calc_network_speeds]

example : calc_network_speeds ⟨1000, 500, 5⟩ ⟨3048, 1012, 5⟩ = none := by
  norm_num [calc_network_speeds]

example : calc_network_speeds ⟨1000, 500, 0⟩ ⟨0, 500, 1⟩ = some (-1000, 0) := by
  norm_num [calc_network_speeds]

/-- The metric values published by one call of update_labels (lines 432-472):
the numeric content of the panel label and the menu items.  The GPU value is
shown only when self.has_radeontop holds (line 461), the power-profile
indicator only when self.has_power_profiles holds (line 449). -/
structure Snapshot where
  cpu_percent : ℚ
  gpu_percent : Option ℚ
  mem_percent : ℚ
  disk_percent : ℚ
  recv_rate : ℚ
  sent_rate : ℚ
  power_profile : Option String
deriving DecidableEq

/-- format_percent, lines 426-430: value = min(value, 99.9); the numeric
value rendered into the fixed-width string. -/
def format_percent (value : ℚ) : ℚ :=
  min value (999 / 10)

/-- update_labels, lines 432-472, restricted to the numeric values it
publishes.  Lines 435-436 cap CPU and GPU at 99.9 before formatting; every
percentage is then formatted through format_percent, which caps at 99.9
again.  The three state attributes it reads (self.has_radeontop,
self.has_power_profiles, self.current_power_profile) are passed as
arguments. -/
def update_labels (has_radeontop has_power_profiles : Bool)
    (current_profile : String)
    (cpu_percent gpu_percent mem_percent disk_percent recv_speed sent_speed : ℚ) :
    Snapshot :=
  { cpu_percent := format_percent (min cpu_percent (999 / 10))
    gpu_percent :=
      if has_radeontop then some (format_percent (min gpu_percent (999 / 10)))
      else none
    mem_percent := format_percent mem_percent
    disk_percent := format_percent disk_percent
    recv_rate := recv_speed
    sent_rate := sent_speed
    power_profile := if has_power_profiles then some current_profile else none }

/-- str.strip() with no argument: remove leading and trailing whitespace
(modelled over the ASCII whitespace class). -/
def py_strip (s : String) : String :=
  ⟨((s.data.dropWhile (fun c => c.isWhitespace)).reverse.dropWhile
      (fun c => c.isWhitespace)).reverse⟩

/-- get_current_power_profile, lines 244-257: runs powerprofilesctl get and
returns result.stdout.strip(); on subprocess.CalledProcessError (modelled as
a none input) it returns the literal "balanced". -/
def get_current_power_profile (query : Option String) : String :=
  match query with
  | some out => py_strip out
  | none => "balanced"

/-- The power-profile re-check of update_stats, lines 359-369, reduced to
the two attributes it writes (self.update_count, self.current_power_profile).
A none update_count models the state before the attribute exists
(hasattr(self, 'update_count') is false on the first cycle).  Every fifth
counted cycle the profile is re-queried and any differing result is stored
verbatim. -/
def power_profile_recheck (has_power_profiles : Bool) (update_count : Option ℕ)
    (current_profile : String) (query : Option String) : Option ℕ × String :=
  match has_power_profiles, update_count with
  | true, some c =>
    if 5 ≤ c + 1 then
      let new_profile := get_current_power_profile query
      if new_profile ≠ current_profile then (some 0, new_profile)
      else (some 0, current_profile)
    else (some (c + 1), current_profile)
  | _, _ => (some 0, current_profile)

/-- The mutable attributes of the UnitySysMonitor object that the sampler
loop, the radeontop reader thread and the menu callbacks share, plus two
bookkeeping fields: alive records whether the update_stats thread is still
running (an uncaught exception in its body kills it), and radeontop_spawns
counts how many times the privileged helper command
pkexec radeontop (line 283-288) has been launched. -/
structure MonitorState where
  running : Bool
  alive : Bool
  has_radeontop : Bool
  radeontop_spawns : ℕ
  gpu_percent : ℚ
  has_power_profiles : Bool
  current_power_profile : String
  update_count : Option ℕ
  update_interval : ℕ
  prev_net : CounterSample
deriving DecidableEq

/-- The outside-world readings consumed by one iteration of the update_stats
loop.  A none models the corresponding psutil call raising an exception;
profile_query is the stdout of powerprofilesctl get, none modelling
subprocess.CalledProcessError. -/
structure CycleInput where
  cpu : Option ℚ
  mem : Option ℚ
  disk : Option ℚ
  net : Option NetCounters
  now : ℚ
  profile_query : Option String
deriving DecidableEq

/-- One iteration of the update_stats loop body, lines 328-374.  The body
contains no try/except: if any psutil call raises (a none input) or the
network-rate division raises ZeroDivisionError, the exception propagates and
the thread dies, modelled by a none result.  On success it returns the
updated state and the values handed to update_labels via GLib.idle_add
(line 372). -/
def update_stats_cycle (inp : CycleInput) (st : MonitorState) :
    Option (MonitorState × Snapshot) :=
  match inp.cpu, inp.mem, inp.disk, inp.net with
  | some cpu, some mem, some disk, some net =>
    match calc_network_speeds st.prev_net ⟨net.bytes_recv, net.bytes_sent, inp.now⟩ with
    | none => none
    | some speeds =>
      some
        ({ st with
            prev_net := ⟨net.bytes_recv, net.bytes_sent, inp.now⟩
            update_count :=
              (power_profile_recheck st.has_power_profiles st.update_count
                st.current_power_profile inp.profile_query).1
            current_power_profile :=
              (power_profile_recheck st.has_power_profiles st.update_count
                st.current_power_profile inp.profile_query).2 },
         update_labels st.has_radeontop st.has_power_profiles
           (power_profile_recheck st.has_power_profiles st.update_count
             st.current_power_profile inp.profile_query).2
           cpu (if st.has_radeontop then st.gpu_percent else 0)
           mem disk speeds.1 speeds.2)
  | _, _, _, _ => none

/-- The character class of the regex \s in line 313, restricted to its ASCII
members (space, tab, newline, carriage return, vertical tab, form feed);
radeontop output is ASCII. -/
def python_ws (c : Char) : Bool :=
  c = ' ' || c = '\t' || c = '\n' || c = '\r' || c = Char.ofNat 11 || c = Char.ofNat 12

/-- Match the sub-pattern (\d+\.\d+) of line 313 at the head of the list:
one or more digits, a dot, one or more digits; returns the matched text
(the captured group).  Greedy matching of \d+ coincides with regex
backtracking here because a shorter digit run is necessarily followed by a
digit, which matches neither the dot nor the end of the group. -/
def match_decimal (l : List Char) : Option (List Char) :=
  let d1 := l.takeWhile Char.isDigit
  if d1.isEmpty then none
  else
    match l.drop d1.length with
    | '.' :: rest =>
      let d2 := rest.takeWhile Char.isDigit
      if d2.isEmpty then none else some (d1 ++ '.' :: d2)
    | _ => none

/-- Match the full pattern gpu\s+(\d+\.\d+) of line 313 anchored at the head
of the list. -/
def match_gpu_at (l : List Char) : Option (List Char) :=
  match l with
  | 'g' :: 'p' :: 'u' :: rest =>
    let ws := rest.takeWhile python_ws
    if ws.isEmpty then none else match_decimal (rest.drop ws.length)
  | _ => none

/-- re.search of line 313: try the anchored pattern at each position from
the left and return the first captured group, if any. -/
def search_gpu : List Char → Option (List Char)
  | [] => none
  | c :: rest =>
    match match_gpu_at (c :: rest) with
    | some g => some g
    | none => search_gpu rest

/-- Numeric value of a run of decimal digits. -/
def digits_to_nat (l : List Char) : ℕ :=
  l.foldl (fun a c => 10 * a + (c.toNat - 48)) 0

/-- float(...) of line 316 applied to a captured group of shape
digits '.' digits, read exactly (floats modelled as rationals). -/
def parse_decimal (g : List Char) : ℚ :=
  let d1 := g.takeWhile Char.isDigit
  let d2 := g.drop (d1.length + 1)
  (digits_to_nat d1 : ℚ) + (digits_to_nat d2 : ℚ) / (10 ^ d2.length)

/-- Processing of one line of radeontop output by read_radeontop_output,
lines 313-316: self.gpu_percent is overwritten with the parsed percentage
when the search succeeds and is left unchanged otherwise. -/
def read_radeontop_line (line : String) (gpu_percent : ℚ) : ℚ :=
  match search_gpu line.data with
  | some g => parse_decimal g
  | none => gpu_percent

example : read_radeontop_line "gpu 45.7 vram 12.3" 0 = 457 / 10 := by
  have h : search_gpu ("gpu 45.7 vram 12.3".data) = some ['4', '5', '.', '7'] := by decide
  have h1 : List.takeWhile Char.isDigit ['4', '5', '.', '7'] = ['4', '5'] := by decide
  have h2 : digits_to_nat ['4', '5'] = 45 := by decide
  have h3 : digits_to_nat ['7'] = 7 := by decide
  simp only [read_radeontop_line, h, parse_decimal, h1]
  norm_num [h2, h3]

example : read_radeontop_line "gpu 45" 7 = 7 := by
  have h : search_gpu ("gpu 45".data) = none := by decide
  simp [read_radeontop_line, h]

example : read_radeontop_line "memory 80.0" 7 = 7 := by
  have h : search_gpu ("memory 80.0".data) = none := by decide
  simp [read_radeontop_line, h]

/-- The atomic events that mutate the shared UnitySysMonitor state after
construction: one iteration of the update_stats loop (lines 328-374), the
radeontop reader thread consuming one output line (lines 306-316), the
reader thread observing end-of-stream, process exit or a read error
(lines 309-310, 317-324), the interval preference callback (lines 274-277),
and the quit handler setting self.running (line 476). -/
inductive Ev where
  | cycle (inp : CycleInput)
  | helperLine (line : String)
  | helperExit
  | setInterval (n : ℕ)
  | quit
deriving DecidableEq

/-- Effect of one event on the shared state, together with the snapshot it
publishes, if any.  The update_stats loop runs an iteration only while
self.running is true (line 328) and only if the thread has not already died
of an uncaught exception; an uncaught exception kills the thread (alive
becomes false) and publishes nothing.  The reader thread guards its loop
with self.running (line 306) and on termination sets self.has_radeontop to
False when self.running still holds (lines 322-324).  No event ever starts
a radeontop process: start_radeontop is called only from the constructor
(line 201). -/
def step (e : Ev) (st : MonitorState) : MonitorState × Option Snapshot :=
  match e with
  | .cycle inp =>
    if st.running && st.alive then
      match update_stats_cycle inp st with
      | some p => (p.1, some p.2)
      | none => ({ st with alive := false }, none)
    else (st, none)
  | .helperLine line =>
    if st.running then
      ({ st with gpu_percent := read_radeontop_line line st.gpu_percent }, none)
    else (st, none)
  | .helperExit =>
    if st.running then ({ st with has_radeontop := false }, none)
    else (st, none)
  | .setInterval n => ({ st with update_interval := n }, none)
  | .quit => ({ st with running := false }, none)

/-- Run a sequence of events from a state, collecting the final state and
every published snapshot in order. -/
def run_trace : List Ev → MonitorState → MonitorState × List Snapshot
  | [], st => (st, [])
  | e :: es, st =>
    ((run_trace es (step e st).1).1,
     (step e st).2.toList ++ (run_trace es (step e st).1).2)

/-- The state built by __init__ (lines 56-206).  radeontop_present is the
result of check_radeontop (line 75), spawn_ok whether the
pkexec radeontop launch of start_radeontop succeeded (start_radeontop is
invoked, and hence the privileged command attempted, if and only if the
binary was detected, lines 200-201; on subprocess.SubprocessError it sets
self.has_radeontop to False, line 298).  power_ok is the result of
check_power_profiles (line 81); when it holds, the initial profile is read
with get_current_power_profile (lines 83-84), otherwise the default
"balanced" of line 82 stands.  net0 and t0 are the initial counter readings
of lines 196-197.  update_count does not exist yet (hasattr is false). -/
def init_state (radeontop_present spawn_ok power_ok : Bool)
    (init_query : Option String) (net0 : NetCounters) (t0 : ℚ) : MonitorState :=
  { running := true
    alive := true
    has_radeontop := radeontop_present && spawn_ok
    radeontop_spawns := if radeontop_present then 1 else 0
    gpu_percent := 0
    has_power_profiles := power_ok
    current_power_profile :=
      if power_ok then get_current_power_profile init_query else "balanced"
    update_count := none
    update_interval := 1
    prev_net := ⟨net0.bytes_recv, net0.bytes_sent, t0⟩ }

/-- No snapshot in the list carries a GPU value. -/
def gpu_absent (l : List Snapshot) : Prop :=
  ∀ s ∈ l, s.gpu_percent = none

/-- A concrete healthy post-construction state used by the concrete
instantiations below. -/
def ex_state : MonitorState :=
  { running := true
    alive := true
    has_radeontop := true
    radeontop_spawns := 1
    gpu_percent := 42
    has_power_profiles := true
    current_power_profile := "balanced"
    update_count := some 0
    update_interval := 1
    prev_net := ⟨0, 0, 0⟩ }

/-- A cycle input on which every metric source succeeds. -/
def ex_input_ok : CycleInput :=
  ⟨some 50, some 40, some 30, some ⟨2048, 1024⟩, 1, some "balanced"⟩

/-- A cycle input whose CPU query raises. -/
def ex_input_cpu_fail : CycleInput :=
  ⟨none, some 40, some 30, some ⟨2048, 1024⟩, 1, some "balanced"⟩

/-- A cycle input whose memory query raises. -/
def ex_input_mem_fail : CycleInput :=
  ⟨some 50, none, some 30, some ⟨2048, 1024⟩, 1, some "balanced"⟩

/-- A cycle input arriving with the same wall-clock reading as the retained
previous sample of ex_state. -/
def ex_input_zero_dt : CycleInput :=
  ⟨some 50, some 40, some 30, some ⟨3048, 1012⟩, 0, some "balanced"⟩

/-- A concrete event sequence. -/
def ex_events : List Ev :=
  [Ev.cycle ex_input_ok, Ev.helperLine "gpu 45.7 vram 12.3", Ev.setInterval 2,
   Ev.cycle ex_input_ok]

lemma calc_network_speeds_of_ne (prev curr : CounterSample)
    (h : curr.timestamp ≠ prev.timestamp) :
    calc_network_speeds prev curr =
      some (((curr.bytes_recv : ℚ) - (prev.bytes_recv : ℚ)) / (curr.timestamp - prev.timestamp),
            ((curr.bytes_sent : ℚ) - (prev.bytes_sent : ℚ)) / (curr.timestamp - prev.timestamp)) := by
  unfold calc_network_speeds
  rw [if_neg (sub_ne_zero_of_ne h)]

lemma update_stats_cycle_frame (inp : CycleInput) (st st' : MonitorState)
    (snap : Snapshot) (h : update_stats_cycle inp st = some (st', snap)) :
    st'.running = st.running ∧ st'.alive = st.alive ∧
    st'.has_radeontop = st.has_radeontop ∧
    st'.radeontop_spawns = st.radeontop_spawns := by
  unfold update_stats_cycle at h
  repeat' split at h
  all_goals cases h
  all_goals exact ⟨rfl, rfl, rfl, rfl⟩

lemma update_stats_cycle_gpu (inp : CycleInput) (st st' : MonitorState)
    (snap : Snapshot) (hr : st.has_radeontop = false)
    (h : update_stats_cycle inp st = some (st', snap)) :
    snap.gpu_percent = none := by
  unfold update_stats_cycle at h
  repeat' split at h
  all_goals cases h
  all_goals simp [update_labels, hr]

lemma step_inv (e : Ev) (st : MonitorState) (h : st.has_radeontop = false) :
    (step e st).1.has_radeontop = false ∧
    (step e st).1.radeontop_spawns = st.radeontop_spawns ∧
    ∀ snap, (step e st).2 = some snap → snap.gpu_percent = none := by
  cases e with
  | cycle inp =>
    by_cases hg : (st.running && st.alive) = true
    · rcases hm : update_stats_cycle inp st with _ | ⟨st', snap'⟩
      · simp [step, hg, hm, h]
      · obtain ⟨-, -, f3, f4⟩ := update_stats_cycle_frame inp st st' snap' hm
        have hgp := update_stats_cycle_gpu inp st st' snap' h hm
        simp only [step, hg, if_true, hm]
        refine ⟨by rw [f3, h], by rw [f4], ?_⟩
        intro snap hs
        cases hs
        exact hgp
    · simp [step, hg, h]
  | helperLine line =>
    by_cases hg : st.running = true <;> simp [step, hg, h]
  | helperExit =>
    by_cases hg : st.running = true <;> simp [step, hg, h]
  | setInterval n => simp [step, h]
  | quit => simp [step, h]

lemma run_trace_inv (es : List Ev) (st : MonitorState)
    (h : st.has_radeontop = false) :
    (run_trace es st).1.has_radeontop = false ∧
    (run_trace es st).1.radeontop_spawns = st.radeontop_spawns ∧
    gpu_absent (run_trace es st).2 := by
  induction es generalizing st with
  | nil =>
    refine ⟨h, rfl, ?_⟩
    intro s hs
    cases hs
  | cons e es ih =>
    obtain ⟨h1, h2, h3⟩ := step_inv e st h
    obtain ⟨g1, g2, g3⟩ := ih (step e st).1 h1
    refine ⟨g1, by rw [run_trace]; rw [g2, h2], ?_⟩
    intro s hs
    rw [run_trace] at hs
    rcases List.mem_append.mp hs with hs1 | hs2
    · exact h3 s (by simpa using hs1)
    · exact g3 s hs2

/-- Claim C1: the spec asserts that for curr.timestamp less than or equal to
prev.timestamp the rate computation returns the previous cycle's rate pair
unchanged and never divides by zero.  The code has no such guard: with equal
timestamps the division of lines 352-353 is a division by zero
(ZeroDivisionError, modelled as none: no rate pair at all is returned and
the sampler thread dies), and with a negative elapsed time the division is
simply performed with the negative denominator; a previous rate pair is not
even retained by the program.  This theorem proves the amended statement. -/
theorem C1_no_guard_on_elapsed (prev curr : CounterSample) :
    (curr.timestamp = prev.timestamp → calc_network_speeds prev curr = none) ∧
    (curr.timestamp ≠ prev.timestamp → calc_network_speeds prev curr =
      some (((curr.bytes_recv : ℚ) - (prev.bytes_recv : ℚ)) / (curr.timestamp - prev.timestamp),
            ((curr.bytes_sent : ℚ) - (prev.bytes_sent : ℚ)) / (curr.timestamp - prev.timestamp))) := by
  constructor
  · intro h
    unfold calc_network_speeds
    rw [if_pos (by rw [h, sub_self])]
  · exact calc_network_speeds_of_ne prev curr

/-- Claim C1, counterexample to the claim as stated: two samples taken at
the same instant make the rate computation fail with a division by zero
(none); no rate pair, in particular not the previous one, is returned, and
the whole cycle consequently dies. -/
theorem C1_zero_elapsed_cex :
    calc_network_speeds ⟨1000, 500, 5⟩ ⟨3048, 1012, 5⟩ = none ∧
    update_stats_cycle ex_input_zero_dt ex_state = none := by
  constructor
  · norm_num [calc_network_speeds]
  · norm_num [update_stats_cycle, ex_input_zero_dt, ex_state, calc_network_speeds]

/-- Claim C1, witness for the amended theorem at a concrete input. -/
theorem C1_no_guard_witness :
    calc_network_speeds ⟨7, 7, 3⟩ ⟨7, 7, 3⟩ = none :=
  (C1_no_guard_on_elapsed ⟨7, 7, 3⟩ ⟨7, 7, 3⟩).1 rfl

/-- Claim C2: the spec asserts that a decreased cumulative counter yields a
rate of 0 instead of a negative number.  The code performs no clamping: with
positive elapsed time a decreased counter yields a strictly negative rate
for that field (independently per field).  This theorem proves the amended
statement. -/
theorem C2_negative_rate (prev curr : CounterSample)
    (ht : prev.timestamp < curr.timestamp) :
    calc_network_speeds prev curr =
      some (((curr.bytes_recv : ℚ) - (prev.bytes_recv : ℚ)) / (curr.timestamp - prev.timestamp),
            ((curr.bytes_sent : ℚ) - (prev.bytes_sent : ℚ)) / (curr.timestamp - prev.timestamp)) ∧
    (curr.bytes_recv < prev.bytes_recv →
      ((curr.bytes_recv : ℚ) - (prev.bytes_recv : ℚ)) / (curr.timestamp - prev.timestamp) < 0) ∧
    (curr.bytes_sent < prev.bytes_sent →
      ((curr.bytes_sent : ℚ) - (prev.bytes_sent : ℚ)) / (curr.timestamp - prev.timestamp) < 0) := by
  refine ⟨calc_network_speeds_of_ne prev curr (ne_of_gt ht), ?_, ?_⟩
  · intro hb
    exact div_neg_of_neg_of_pos (sub_neg.mpr (by exact_mod_cast hb)) (sub_pos.mpr ht)
  · intro hb
    exact div_neg_of_neg_of_pos (sub_neg.mpr (by exact_mod_cast hb)) (sub_pos.mpr ht)

/-- Claim C2, counterexample to the claim as stated: bytes_recv falls from
1000 to 0 over one second and the computed receive rate is -1000, not 0. -/
theorem C2_counter_reset_cex :
    calc_network_speeds ⟨1000, 500, 0⟩ ⟨0, 500, 1⟩ = some (-1000, 0) ∧
    (-1000 : ℚ) < 0 := by
  constructor
  · norm_num [calc_network_speeds]
  · norm_num

/-- Claim C2, witness for the amended theorem at a concrete input. -/
theorem C2_negative_rate_witness :
    (0 : ℚ) < 1 ∧
    (((0 : ℕ) : ℚ) - ((1000 : ℕ) : ℚ)) / ((1 : ℚ) - (0 : ℚ)) < 0 :=
  ⟨by norm_num,
   (C2_negative_rate ⟨1000, 500, 0⟩ ⟨0, 500, 1⟩ (by norm_num)).2.1 (by norm_num)⟩

/-- Claim C5: for samples with positive elapsed time the computed rates are
exactly (curr.bytes - prev.bytes) / elapsed, elementwise (the subtraction
taken in the rationals, so the identity covers decreasing counters as well);
confirmed. -/
theorem C5_rate_formula (prev curr : CounterSample)
    (h : prev.timestamp < curr.timestamp) :
    calc_network_speeds prev curr =
      some (((curr.bytes_recv : ℚ) - (prev.bytes_recv : ℚ)) / (curr.timestamp - prev.timestamp),
            ((curr.bytes_sent : ℚ) - (prev.bytes_sent : ℚ)) / (curr.timestamp - prev.timestamp)) :=
  calc_network_speeds_of_ne prev curr (ne_of_gt h)

/-- Claim C5, witness: the spec's example scenario, prev
(bytes_recv 1000, bytes_sent 500, t 0) and curr
(bytes_recv 3048, bytes_sent 1012, t 2) give 1024 B/s and 256 B/s. -/
theorem C5_rate_formula_witness :
    (0 : ℚ) < 2 ∧
    calc_network_speeds ⟨1000, 500, 0⟩ ⟨3048, 1012, 2⟩ = some (1024, 256) := by
  refine ⟨by norm_num, ?_⟩
  rw [C5_rate_formula ⟨1000, 500, 0⟩ ⟨3048, 1012, 2⟩ (by norm_num)]
  norm_num

/-- Claim C3: the spec asserts that an exception in any single metric source
is caught per-source, the last-known value (or zero) substituted, and the
loop continues.  The update_stats loop body contains no try/except: any
psutil exception propagates, the cycle publishes nothing and the sampler
thread dies.  This theorem proves the amended statement: a failure of any
one of the CPU, memory, disk or network queries makes the iteration return
no snapshot, and the corresponding step leaves the thread dead. -/
theorem C3_uncaught_source_error (inp : CycleInput) (st : MonitorState)
    (hr : st.running = true) (ha : st.alive = true)
    (h : inp.cpu = none ∨ inp.mem = none ∨ inp.disk = none ∨ inp.net = none) :
    update_stats_cycle inp st = none ∧
    (step (Ev.cycle inp) st).1.alive = false ∧
    (step (Ev.cycle inp) st).2 = none := by
  have hc : update_stats_cycle inp st = none := by
    rcases hcpu : inp.cpu with _ | cpu <;>
      rcases hmem : inp.mem with _ | mem <;>
        rcases hdisk : inp.disk with _ | disk <;>
          rcases hnet : inp.net with _ | net <;>
            simp_all [update_stats_cycle]
  have hg : (st.running && st.alive) = true := by rw [hr, ha]; rfl
  exact ⟨hc, by simp [step, hg, hc], by simp [step, hg, hc]⟩

/-- Claim C3, counterexample to the claim as stated: a failing CPU query on
a healthy state produces no snapshot and kills the update thread instead of
substituting a value and continuing. -/
theorem C3_cpu_failure_cex :
    update_stats_cycle ex_input_cpu_fail ex_state = none ∧
    (step (Ev.cycle ex_input_cpu_fail) ex_state).1.alive = false ∧
    (step (Ev.cycle ex_input_cpu_fail) ex_state).2 = none := by
  refine ⟨rfl, ?_, ?_⟩ <;> rfl

/-- Claim C3, witness for the amended theorem: a failing memory query. -/
theorem C3_uncaught_witness :
    update_stats_cycle ex_input_mem_fail ex_state = none ∧
    (step (Ev.cycle ex_input_mem_fail) ex_state).1.alive = false ∧
    (step (Ev.cycle ex_input_mem_fail) ex_state).2 = none :=
  C3_uncaught_source_error ex_input_mem_fail ex_state rfl rfl
    (Or.inr (Or.inl rfl))

/-- Claim C4: the spec asserts that a failed power-profile query returns the
previously known value.  The code's exception handler (line 257) returns the
constant "balanced" regardless of the tracked value, and the periodic
re-check then stores that constant.  This theorem proves the amended
statement: on failure the probe returns the constant "balanced", so while
the tracked value is "balanced" every cycle (re-checking or not) keeps
publishing "balanced", and the query failure never aborts the re-check. -/
theorem C4_fallback_constant :
    get_current_power_profile none = "balanced" ∧
    ∀ (has_pp : Bool) (uc : Option ℕ),
      (power_profile_recheck has_pp uc "balanced" none).2 = "balanced" := by
  refine ⟨rfl, ?_⟩
  intro has_pp uc
  rcases uc with _ | c <;> cases has_pp <;>
    simp [power_profile_recheck, get_current_power_profile]
  split <;> rfl

/-- Claim C4, counterexample to the claim as stated: with tracked profile
"performance" and a failed query on a re-check cycle, the stored profile
becomes "balanced", not the previously known "performance". -/
theorem C4_fallback_cex :
    (power_profile_recheck true (some 4) "performance" none).2 = "balanced" ∧
    "balanced" ≠ "performance" := by
  refine ⟨?_, by decide⟩
  simp [power_profile_recheck, get_current_power_profile]

/-- Claim C4, witness for the amended theorem (there is no hypothesis to
discharge; this instantiates the universally quantified part at a re-check
state). -/
theorem C4_fallback_witness :
    (power_profile_recheck true (some 4) "balanced" none).2 = "balanced" :=
  C4_fallback_constant.2 true (some 4)

/-- Claim C6: the spec asserts that an unknown profile string from the
external tool is treated as a probe failure and never stored.  The code
stores result.stdout.strip() of any successful powerprofilesctl get
verbatim, with no membership check against the three known profiles, so
arbitrary strings become the tracked current profile.  This theorem proves
the amended statement: on a counted re-check cycle, any successful query
output is stored (trimmed) as the current profile, whatever it is. -/
theorem C6_stores_any_string (current q : String) (c : ℕ) (h : 4 ≤ c) :
    (power_profile_recheck true (some c) current (some q)).2 = py_strip q := by
  simp only [power_profile_recheck, get_current_power_profile]
  split_ifs with h1 h2
  · rfl
  · exact (not_not.mp h2).symm
  · exact absurd (by omega : 5 ≤ c + 1) h1

/-- Claim C6, counterexample to the claim as stated: the unknown string
"turbo" returned by a successful query is stored as the tracked current
profile, a representable fourth state. -/
theorem C6_unknown_string_cex :
    (power_profile_recheck true (some 4) "performance" (some "turbo")).2 = "turbo" ∧
    "turbo" ≠ "performance" ∧ "turbo" ≠ "balanced" ∧ "turbo" ≠ "power-saver" := by
  refine ⟨by decide, by decide, by decide, by decide⟩

/-- Claim C6, witness for the amended theorem at a concrete input. -/
theorem C6_stores_any_string_witness :
    4 ≤ 4 ∧
    (power_profile_recheck true (some 4) "balanced" (some "turbo")).2 = "turbo" :=
  ⟨le_refl 4, by
    rw [C6_stores_any_string "balanced" "turbo" 4 (le_refl 4)]
    decide⟩

example : py_strip " balanced\n" = "balanced" := by decide

/-- Claim C7: the spec asserts every percentage field is clamped to the
range [0, 99.9] before publication.  The code only caps from above with
min(value, 99.9) (lines 429 and 435-436); there is no lower clamp, so a
negative raw reading would be published unchanged.  This theorem proves the
amended statement: for non-negative raw readings every published percentage
lies in [0, 99.9], and a raw CPU reading of 100.0 is published as 99.9. -/
theorem C7_upper_cap_only (hr hp : Bool) (prof : String)
    (cpu gpu mem disk recv sent : ℚ)
    (hc : 0 ≤ cpu) (hg : 0 ≤ gpu) (hm : 0 ≤ mem) (hd : 0 ≤ disk) :
    (0 ≤ (update_labels hr hp prof cpu gpu mem disk recv sent).cpu_percent ∧
      (update_labels hr hp prof cpu gpu mem disk recv sent).cpu_percent ≤ 999 / 10) ∧
    (0 ≤ (update_labels hr hp prof cpu gpu mem disk recv sent).mem_percent ∧
      (update_labels hr hp prof cpu gpu mem disk recv sent).mem_percent ≤ 999 / 10) ∧
    (0 ≤ (update_labels hr hp prof cpu gpu mem disk recv sent).disk_percent ∧
      (update_labels hr hp prof cpu gpu mem disk recv sent).disk_percent ≤ 999 / 10) ∧
    (0 ≤ ((update_labels hr hp prof cpu gpu mem disk recv sent).gpu_percent.getD 0) ∧
      ((update_labels hr hp prof cpu gpu mem disk recv sent).gpu_percent.getD 0) ≤ 999 / 10) ∧
    (cpu = 100 →
      (update_labels hr hp prof cpu gpu mem disk recv sent).cpu_percent = 999 / 10) := by
  have hq : (0 : ℚ) ≤ 999 / 10 := by norm_num
  refine ⟨⟨?_, ?_⟩, ⟨?_, ?_⟩, ⟨?_, ?_⟩, ⟨?_, ?_⟩, ?_⟩
  · exact le_min (le_min hc hq) hq
  · exact min_le_right _ _
  · exact le_min hm hq
  · exact min_le_right _ _
  · exact le_min hd hq
  · exact min_le_right _ _
  · cases hr <;> simp [update_labels, format_percent]
    exact ⟨hg, hq⟩
  · cases hr <;> simp [update_labels, format_percent, hq]
  · intro h100
    show min (min cpu (999 / 10)) (999 / 10) = 999 / 10
    rw [h100, min_eq_right (by norm_num : (999 : ℚ) / 10 ≤ 100), min_self]

/-- Claim C7, counterexample to the claim as stated: a raw reading of -1 is
published as -1, below the claimed range [0, 99.9]; only the upper cap
exists. -/
theorem C7_negative_passthrough_cex :
    (update_labels true true "balanced" (-1) 0 0 0 0 0).cpu_percent = -1 ∧
    (-1 : ℚ) < 0 := by
  constructor
  · show min (min (-1 : ℚ) (999 / 10)) (999 / 10) = -1
    rw [min_eq_left (by norm_num : (-1 : ℚ) ≤ 999 / 10),
        min_eq_left (by norm_num : (-1 : ℚ) ≤ 999 / 10)]
  · norm_num

/-- Claim C7, witness for the amended theorem: a raw CPU reading of 100 is
published as exactly 99.9 and within bounds. -/
theorem C7_upper_cap_witness :
    (0 ≤ (update_labels true true "balanced" 100 50 20 30 0 0).cpu_percent ∧
      (update_labels true true "balanced" 100 50 20 30 0 0).cpu_percent ≤ 999 / 10) ∧
    (update_labels true true "balanced" 100 50 20 30 0 0).cpu_percent = 999 / 10 :=
  ⟨(C7_upper_cap_only true true "balanced" 100 50 20 30 0 0
      (by norm_num) (by norm_num) (by norm_num) (by norm_num)).1,
   (C7_upper_cap_only true true "balanced" 100 50 20 30 0 0
      (by norm_num) (by norm_num) (by norm_num) (by norm_num)).2.2.2.2 rfl⟩

/-- Claim C8: once the radeontop helper exits or its stream closes while the
monitor is running (the helperExit event, lines 309-310 and 317-324),
self.has_radeontop is false and stays false under every later event, every
later published snapshot carries no GPU value, and the number of privileged
radeontop launches never changes (no restart exists in the program);
confirmed. -/
theorem C8_helper_exit_permanent (st : MonitorState) (es : List Ev)
    (h : st.running = true) :
    (step Ev.helperExit st).1.has_radeontop = false ∧
    gpu_absent (run_trace es (step Ev.helperExit st).1).2 ∧
    (run_trace es (step Ev.helperExit st).1).1.has_radeontop = false ∧
    (run_trace es (step Ev.helperExit st).1).1.radeontop_spawns =
      st.radeontop_spawns := by
  have hx : (step Ev.helperExit st).1.has_radeontop = false := by
    simp [step, h]
  have hs : (step Ev.helperExit st).1.radeontop_spawns = st.radeontop_spawns := by
    simp [step, h]
  obtain ⟨a, b, c⟩ := run_trace_inv es _ hx
  exact ⟨hx, c, a, by rw [b, hs]⟩

/-- Claim C8, witness at a concrete running state and a concrete later
event sequence containing further cycles, helper lines and a preference
change. -/
theorem C8_helper_exit_witness :
    (step Ev.helperExit ex_state).1.has_radeontop = false ∧
    gpu_absent (run_trace ex_events (step Ev.helperExit ex_state).1).2 ∧
    (run_trace ex_events (step Ev.helperExit ex_state).1).1.radeontop_spawns =
      ex_state.radeontop_spawns :=
  ⟨(C8_helper_exit_permanent ex_state ex_events rfl).1,
   (C8_helper_exit_permanent ex_state ex_events rfl).2.1,
   (C8_helper_exit_permanent ex_state ex_events rfl).2.2.2⟩

/-- Claim C9: when check_radeontop fails at startup, __init__ never calls
start_radeontop (lines 200-201), so the privileged pkexec radeontop command
is never attempted (spawn count stays 0 across every event sequence) and no
published snapshot ever carries a GPU value; confirmed. -/
theorem C9_absent_binary_inert (spawn_ok power_ok : Bool)
    (q : Option String) (net0 : NetCounters) (t0 : ℚ) (es : List Ev) :
    (init_state false spawn_ok power_ok q net0 t0).radeontop_spawns = 0 ∧
    gpu_absent (run_trace es (init_state false spawn_ok power_ok q net0 t0)).2 ∧
    (run_trace es (init_state false spawn_ok power_ok q net0 t0)).1.radeontop_spawns = 0 := by
  have h0 : (init_state false spawn_ok power_ok q net0 t0).has_radeontop = false := by
    simp [init_state]
  have h1 : (init_state false spawn_ok power_ok q net0 t0).radeontop_spawns = 0 := by
    simp [init_state]
  obtain ⟨-, b, c⟩ := run_trace_inv es _ h0
  exact ⟨h1, c, by rw [b, h1]⟩

/-- Claim C10: the cached GPU reading changes only on a line where the
pattern gpu\s+(\d+\.\d+) of line 313 matches: "gpu" followed by whitespace
and a number containing a decimal point.  A line where the search fails
leaves the reading unchanged; in particular "gpu 45" (integer-only
percentage) and "memory 80.0" (no gpu token) leave it unchanged;
confirmed. -/
theorem C10_update_only_on_match :
    (∀ (line : String) (g : ℚ),
      search_gpu line.data = none → read_radeontop_line line g = g) ∧
    (∀ g : ℚ, read_radeontop_line "gpu 45" g = g) ∧
    (∀ g : ℚ, read_radeontop_line "memory 80.0" g = g) := by
  have base : ∀ (line : String) (g : ℚ),
      search_gpu line.data = none → read_radeontop_line line g = g := by
    intro line g h
    simp [read_radeontop_line, h]
  exact ⟨base, fun g => base "gpu 45" g (by decide),
    fun g => base "memory 80.0" g (by decide)⟩

/-- Claim C10, witness: a no-match line applied through the theorem at a
concrete cached value. -/
theorem C10_update_only_witness :
    search_gpu ("vram 12.3".data) = none ∧
    read_radeontop_line "vram 12.3" 7 = 7 :=
  ⟨by decide, C10_update_only_on_match.1 "vram 12.3" 7 (by decide)⟩

end UnitySysMonitor
